import Mathlib

/-!
Shallow embedding of a small in-process HTTP request router for
function-invocation events, in two variants found in the repository:

* `RouterU` — the richer variant (`src/unnamed/part_001`): handlers return a
  `Response`, the router has a panic handler, a trailing-slash-strip flag and
  completion logging, middleware are `Handler → Handler` transformers.
* `RouterGo` — the variant in `src/aws-lambda/function-url-router/router.go`:
  handlers return `(Response, error)`, middleware carry an optional exclusion
  configuration consulted by `shouldApplyMiddleware`.
* `Adapter` — the local HTTP bridge (`src/unnamed/part_000`) translating a
  native HTTP request into the event shape consumed by `RouterU`.

Go maps from strings are embedded as functions `String → Option _`
(Go map semantics: at most one value per key, lookup misses give the zero
value / `ok = false`).  Handlers and middleware are embedded as Lean
functions that additionally thread an explicit event trace
(`List String`), making execution order observable, and — in the `RouterU`
variant — return `Except String Response`, where `.error msg` models a Go
panic with payload `msg` propagating out of the stage.  `context.Context`
is never inspected by any code in the repository and is omitted.
-/

set_option autoImplicit false

/-- Embeds `events.LambdaFunctionURLRequestContextHTTPDescription`. -/
structure HTTPDesc where
  method : String
  path : String
  protocol : String
  sourceIP : String
  userAgent : String
  deriving Repr, DecidableEq

/-- Embeds `events.LambdaFunctionURLRequestContext` (the `Authorizer`
pointer is `none` when nil). -/
structure ReqCtx where
  accountID : String
  requestID : String
  authorizer : Option Unit
  apiID : String
  domainName : String
  domainPrefix : String
  time : String
  timeEpoch : Int
  http : HTTPDesc
  deriving Repr, DecidableEq

/-- Embeds `events.LambdaFunctionURLRequest`. -/
structure LambdaReq where
  version : String
  rawPath : String
  rawQueryString : String
  cookies : List String
  headers : List (String × String)
  queryStringParameters : List (String × String)
  requestContext : ReqCtx
  body : String
  isBase64Encoded : Bool
  deriving Repr, DecidableEq

/-- Lookup in a string-keyed Go map embedded as an association list
(`m[k]` with `ok = true` iff the key is present). -/
def mapLookup (l : List (String × String)) (k : String) : Option String :=
  (l.find? (fun kv => kv.1 == k)).map (fun kv => kv.2)

/-- A convenience constructor for requests: everything not relevant to
routing is left empty. -/
def mkReq (method path : String) (headers : List (String × String) := []) : LambdaReq :=
  { version := "2.0", rawPath := path, rawQueryString := "", cookies := [],
    headers := headers, queryStringParameters := [],
    requestContext :=
      { accountID := "", requestID := "", authorizer := none, apiID := "",
        domainName := "", domainPrefix := "", time := "", timeEpoch := 0,
        http := { method := method, path := path, protocol := "",
                  sourceIP := "", userAgent := "" } },
    body := "", isBase64Encoded := false }

namespace RouterU

/-- Embeds the `Body` payload of `part_001`'s `Response` (a Go
`interface\x7b\x7d`): `nil`, a plain string, or a `map[string]string`
object (what the default handlers return). -/
inductive Body where
  | nil : Body
  | str : String → Body
  | obj : List (String × String) → Body
  deriving Repr, DecidableEq

/-- Embeds `part_001`'s `Response` struct. -/
structure Response where
  statusCode : Nat
  headers : List (String × String)
  body : Body
  deriving Repr, DecidableEq

/-- The zero value of the Go `Response` struct: what a function with an
unnamed `Response` result returns when a deferred `recover()` swallows a
panic before any `return` statement executed. -/
def zeroResponse : Response := { statusCode := 0, headers := [], body := Body.nil }

/-- Embeds `part_001`'s `Handler` capability
(`ServeHTTP(ctx, req) Response`): the embedding threads an event trace and
models a panic as `Except.error`. -/
def Handler : Type := LambdaReq → List String → Except String Response × List String

/-- Embeds `MiddlewareFunc func(Handler) Handler`. -/
def MiddlewareFunc : Type := Handler → Handler

/-- Embeds `part_001`'s `MiddlewareConfig`. -/
structure MiddlewareConfig where
  ExcludedRoutes : List String
  ExcludedMethods : List String
  ExcludedHeaders : List (String × String)

/-- Embeds `part_001`'s `Middleware` struct. -/
structure Middleware where
  Func : MiddlewareFunc
  Config : MiddlewareConfig

/-- Embeds `part_001`'s `Router` struct (the `*log.Logger` field carries no
routing state and is omitted; the completion log line is returned from
`HandleRequest` instead). -/
structure Router where
  routes : String → Option (String → Option Handler)
  preMiddleware : List Middleware
  postMiddleware : List Middleware
  notFoundHandler : Handler
  methodNotAllowedHandler : Handler
  panicHandler : LambdaReq → Response
  stripTrailingSlash : Bool

/-- Embeds `defaultNotFoundHandler` of `part_001`. -/
def defaultNotFoundHandler : Handler := fun _ tr =>
  (Except.ok { statusCode := 404,
               headers := [("Content-Type", "application/json")],
               body := Body.obj [("error", "Not Found")] }, tr)

/-- Embeds `defaultMethodNotAllowedHandler` of `part_001`. -/
def defaultMethodNotAllowedHandler : Handler := fun _ tr =>
  (Except.ok { statusCode := 405,
               headers := [("Content-Type", "application/json")],
               body := Body.obj [("error", "Method Not Allowed")] }, tr)

/-- Embeds `defaultPanicHandler` of `part_001`. -/
def defaultPanicHandler : LambdaReq → Response := fun _ =>
  { statusCode := 500,
    headers := [("Content-Type", "application/json")],
    body := Body.obj [("error", "Internal Server Error")] }

/-- Embeds `NewRouter` of `part_001`: empty route map, default terminal
handlers, `stripTrailingSlash` enabled. -/
def NewRouter : Router :=
  { routes := fun _ => none,
    preMiddleware := [], postMiddleware := [],
    notFoundHandler := defaultNotFoundHandler,
    methodNotAllowedHandler := defaultMethodNotAllowedHandler,
    panicHandler := defaultPanicHandler,
    stripTrailingSlash := true }

/-- Embeds `Router.AddRoute` of `part_001`: ensure the inner method map
exists, then set `routes[path][method] = handler`. -/
def AddRoute (r : Router) (method path : String) (handler : Handler) : Router :=
  let inner : String → Option Handler :=
    match r.routes path with
    | none => fun _ => none
    | some mm => mm
  { r with routes := fun p =>
      if p = path then some (fun m => if m = method then some handler else inner m)
      else r.routes p }

/-- Embeds `Router.UsePre` of `part_001`. -/
def UsePre (r : Router) (mw : MiddlewareFunc) (config : MiddlewareConfig) : Router :=
  { r with preMiddleware := r.preMiddleware ++ [{ Func := mw, Config := config }] }

/-- Embeds `Router.UsePost` of `part_001`. -/
def UsePost (r : Router) (mw : MiddlewareFunc) (config : MiddlewareConfig) : Router :=
  { r with postMiddleware := r.postMiddleware ++ [{ Func := mw, Config := config }] }

/-- Embeds `Router.SetStripTrailingSlash` of `part_001`. -/
def SetStripTrailingSlash (r : Router) (strip : Bool) : Router :=
  { r with stripTrailingSlash := strip }

/-- Embeds `Router.SetPanicHandler` of `part_001`. -/
def SetPanicHandler (r : Router) (h : LambdaReq → Response) : Router :=
  { r with panicHandler := h }

/-- Embeds `strings.TrimRight(s, "/")`: remove ALL trailing `/`
characters (note: not just one, and `"/"` becomes `""`). -/
def trimRightSlash (s : String) : String :=
  String.mk ((s.data.reverse.dropWhile (fun c => c = '/')).reverse)

/-- Embeds `Router.applyMiddleware` of `part_001`: wrap the handler in the
post-middleware from last to first, then in the pre-middleware from last
to first — so `pre[0]` ends up outermost and the route handler innermost. -/
def applyMiddleware (r : Router) (handler : Handler) : Handler :=
  let h1 := r.postMiddleware.foldr (fun mw h => mw.Func h) handler
  r.preMiddleware.foldr (fun mw h => mw.Func h) h1

/-- The completion log entry produced by `Router.logRequestCompletion` of
`part_001` (method, original path, `resp.StatusCode`, and the error text
when present; the wall-clock duration is not embeddable). -/
structure LogEntry where
  method : String
  path : String
  status : Nat
  error : Option String
  deriving Repr, DecidableEq

/-- The observable outcome of one dispatch of `part_001`'s
`Router.HandleRequest`: the value returned to the caller, the completion
log entry, the router state after the call (explicit state passing — the
Go method never assigns to any field of `r`), and the event trace. -/
structure DispatchResult where
  response : Response
  logEntry : LogEntry
  router : Router
  trace : List String

/-- Embeds `Router.HandleRequest` of `part_001`.  The body strips trailing
slashes when enabled, looks up path then method, and runs the matched
handler wrapped in middleware (misses go to the terminal handlers,
unwrapped).  The deferred `recover()` block is embedded faithfully: on a
panic the local `resp` is set from the panic handler and logged with
`error = "panic: <payload>"`, but because the Go function's result is
UNNAMED the caller receives the zero `Response`, not the local. -/
def HandleRequest (r : Router) (req : LambdaReq) : DispatchResult :=
  let path0 := req.requestContext.http.path
  let method := req.requestContext.http.method
  let path := if r.stripTrailingSlash then trimRightSlash path0 else path0
  let out : Except String Response × List String :=
    match r.routes path with
    | some handlers =>
      match handlers method with
      | some handler => (applyMiddleware r handler) req []
      | none => r.methodNotAllowedHandler req []
    | none => r.notFoundHandler req []
  match out with
  | (Except.ok resp, tr) =>
    { response := resp,
      logEntry := { method := method, path := path0, status := resp.statusCode,
                    error := none },
      router := r, trace := tr }
  | (Except.error e, tr) =>
    let resp := r.panicHandler req
    { response := zeroResponse,
      logEntry := { method := method, path := path0, status := resp.statusCode,
                    error := some ("panic: " ++ e) },
      router := r, trace := tr }

end RouterU

namespace RouterGo

/-- Embeds `events.LambdaFunctionURLResponse` as used by
`src/aws-lambda/function-url-router/router.go` (body is a plain string). -/
structure Response where
  statusCode : Nat
  headers : List (String × String)
  body : String
  cookies : List String
  isBase64Encoded : Bool
  deriving Repr, DecidableEq

/-- Embeds `router.go`'s `Handler` capability
(`HandleRequest(ctx, request) (Response, error)`): the embedding threads
an event trace; the Go `error` result is `Option String` (`none` = nil). -/
def Handler : Type := LambdaReq → List String → (Response × Option String) × List String

/-- Embeds `router.go`'s `MiddlewareConfig`. -/
structure MiddlewareConfig where
  ExcludedEndpoints : List String
  ExcludedMethods : List String
  ExcludedHeaders : List (String × String)

/-- Embeds `router.go`'s `Middleware` capability: `Process` receives the
request and the `next` handler; `Config` is a possibly-nil pointer. -/
structure Middleware where
  Process : LambdaReq → Handler → List String → (Response × Option String) × List String
  config : Option MiddlewareConfig

/-- Embeds `router.go`'s `Router` struct. -/
structure Router where
  routes : String → Option (String → Option Handler)
  preMiddleware : List Middleware
  postMiddleware : List Middleware
  notFoundHandler : Handler
  methodNotAllowedHandler : Handler

/-- Embeds `router.go`'s `defaultNotFoundHandler`
(`StatusCode: StatusNotFound, Body: "Not Found"`, nil error). -/
def defaultNotFoundHandler : Handler := fun _ tr =>
  (({ statusCode := 404, headers := [], body := "Not Found",
      cookies := [], isBase64Encoded := false }, none), tr)

/-- Embeds `router.go`'s `defaultMethodNotAllowedHandler`
(`StatusCode: StatusMethodNotAllowed, Body: "Method Not Allowed"`, nil error). -/
def defaultMethodNotAllowedHandler : Handler := fun _ tr =>
  (({ statusCode := 405, headers := [], body := "Method Not Allowed",
      cookies := [], isBase64Encoded := false }, none), tr)

/-- Embeds `router.go`'s `NewRouter`. -/
def NewRouter : Router :=
  { routes := fun _ => none,
    preMiddleware := [], postMiddleware := [],
    notFoundHandler := defaultNotFoundHandler,
    methodNotAllowedHandler := defaultMethodNotAllowedHandler }

/-- Embeds `strings.ToUpper` restricted to ASCII (all method strings in
the repository are ASCII). -/
def goToUpper (s : String) : String := String.mk (s.data.map Char.toUpper)

/-- Embeds `router.go`'s `Router.AddRoute`: ensure the inner method map
exists, then set `routes[path][strings.ToUpper(method)] = handler`. -/
def AddRoute (r : Router) (method path : String) (handler : Handler) : Router :=
  let inner : String → Option Handler :=
    match r.routes path with
    | none => fun _ => none
    | some mm => mm
  { r with routes := fun p =>
      if p = path then
        some (fun m => if m = goToUpper method then some handler else inner m)
      else r.routes p }

/-- Embeds `router.go`'s `Router.UsePre`. -/
def UsePre (r : Router) (mw : Middleware) : Router :=
  { r with preMiddleware := r.preMiddleware ++ [mw] }

/-- Embeds `router.go`'s `Router.UsePost`. -/
def UsePost (r : Router) (mw : Middleware) : Router :=
  { r with postMiddleware := r.postMiddleware ++ [mw] }

/-- Embeds `router.go`'s `Router.shouldApplyMiddleware`: a nil config means
apply; otherwise skip when the request path is an excluded endpoint, or the
request method is an excluded method, or any declared excluded header is
present on the request with the declared value. -/
def shouldApplyMiddleware (mw : Middleware) (request : LambdaReq) : Bool :=
  match mw.config with
  | none => true
  | some config =>
    if config.ExcludedEndpoints.any
        (fun endpoint => request.requestContext.http.path == endpoint) then false
    else if config.ExcludedMethods.any
        (fun method => request.requestContext.http.method == method) then false
    else if config.ExcludedHeaders.any
        (fun hv => match mapLookup request.headers hv.1 with
                   | some headerValue => headerValue == hv.2
                   | none => false) then false
    else true

/-- Embeds `router.go`'s `Router.handleRouteRequest`: look up path, then
method (both verbatim from the request), falling back to the terminal
handlers. -/
def handleRouteRequest (r : Router) : Handler := fun request tr =>
  match r.routes request.requestContext.http.path with
  | some methodHandlers =>
    match methodHandlers request.requestContext.http.method with
    | some handler => handler request tr
    | none => r.methodNotAllowedHandler request tr
  | none => r.notFoundHandler request tr

/-- Embeds `router.go`'s `Router.createHandlerChain`: at dispatch time each
middleware is consulted via `shouldApplyMiddleware` against the current
request; an excluded middleware is skipped and the chain proceeds to the
rest of the list. -/
def createHandlerChain : List Middleware → Handler → Handler
  | [], finalHandler => finalHandler
  | mw :: rest, finalHandler => fun req tr =>
    if shouldApplyMiddleware mw req then
      mw.Process req (createHandlerChain rest finalHandler) tr
    else
      createHandlerChain rest finalHandler req tr

/-- The outcome of one dispatch of `router.go`'s `Router.HandleRequest`:
the `(Response, error)` pair, the event trace, and the router state after
the call (explicit state passing — the Go method never assigns to any
field of `r`). -/
structure DispatchResult where
  response : Response
  error : Option String
  trace : List String
  router : Router

/-- Embeds `router.go`'s `Router.HandleRequest`: wrap `handleRouteRequest`
in the pre-middleware chain, wrap the result in the post-middleware chain
(so post-middleware end up OUTERMOST), and run it. -/
def HandleRequest (r : Router) (request : LambdaReq) : DispatchResult :=
  let handler := createHandlerChain r.preMiddleware (handleRouteRequest r)
  let handler := createHandlerChain r.postMiddleware handler
  let ((resp, err), tr) := handler request []
  { response := resp, error := err, trace := tr, router := r }

end RouterGo

namespace Adapter

/-- Embeds the fields of Go's `*http.Request` that
`LambdaAdapter.httpToLambdaRequest` (`src/unnamed/part_000`) reads: the
header is a `map[string][]string` (multi-values per name), cookies are
already-serialized strings, the body is the full byte content. -/
structure HttpReq where
  method : String
  urlPath : String
  rawQuery : String
  proto : String
  remoteAddr : String
  userAgent : String
  header : List (String × List String)
  query : List (String × List String)
  cookies : List String
  body : String

/-- Embeds `LambdaAdapter` of `part_000` (the logger carries no state). -/
structure LambdaAdapter where
  router : RouterU.Router

/-- Embeds `strings.ToLower` restricted to ASCII (as with `goToUpper`). -/
def goToLower (s : String) : String := String.mk (s.data.map Char.toLower)

/-- Embeds `LambdaAdapter.httpToLambdaRequest` of `part_000`.  Header
names are lower-cased and multi-values joined with `","`; query
multi-values joined with `","`; the current wall-clock time is not
embeddable and is passed in as `now`/`nowEpoch`. -/
def httpToLambdaRequest (r : HttpReq) (now : String) (nowEpoch : Int) : LambdaReq :=
  { version := "2.0",
    rawPath := r.urlPath,
    rawQueryString := r.rawQuery,
    cookies := r.cookies,
    headers := r.header.map (fun kv => (goToLower kv.1, String.intercalate "," kv.2)),
    queryStringParameters := r.query.map (fun kv => (kv.1, String.intercalate "," kv.2)),
    requestContext :=
      { accountID := "123456789012",
        requestID := "dummy-request-id",
        authorizer := none,
        apiID := "dummy-api-id",
        domainName := "dummy.lambda-url.us-east-1.on.aws",
        domainPrefix := "dummy",
        time := now,
        timeEpoch := nowEpoch,
        http :=
          { method := r.method,
            path := r.urlPath,
            protocol := r.proto,
            sourceIP := r.remoteAddr,
            userAgent := r.userAgent } },
    body := r.body,
    isBase64Encoded := false }

/-- Embeds `LambdaAdapter.ServeHTTP` of `part_000`: translate, then hand
the translated request unmodified to `Router.HandleRequest`. -/
def ServeHTTP (la : LambdaAdapter) (r : HttpReq) (now : String) (nowEpoch : Int) :
    RouterU.DispatchResult :=
  let lambdaReq := httpToLambdaRequest r now nowEpoch
  RouterU.HandleRequest la.router lambdaReq

end Adapter

/-!
Instrumented handlers and middleware used to observe execution order and
panic propagation: they record named events on the threaded trace exactly
where the corresponding Go code would execute.
-/

namespace RouterU

/-- A handler that records `name` on the trace and returns `resp`. -/
def tracedHandler (name : String) (resp : Response) : Handler :=
  fun _ tr => (Except.ok resp, tr ++ [name])

/-- A handler that panics with payload `msg` (models `panic(msg)` as the
first statement of a Go handler). -/
def panickingHandler (msg : String) : Handler :=
  fun _ tr => (Except.error msg, tr)

/-- A middleware transform that records `name ++ ":before"`, calls `next`,
and records `name ++ ":after"` on the way back out; a panic from `next`
propagates (the after event never happens, as in Go). -/
def tracedMw (name : String) : MiddlewareFunc := fun next => fun req tr =>
  match next req (tr ++ [name ++ ":before"]) with
  | (Except.ok resp, tr2) => (Except.ok resp, tr2 ++ [name ++ ":after"])
  | (Except.error e, tr2) => (Except.error e, tr2)

/-- An exclusion configuration with nothing excluded. -/
def emptyConfig : MiddlewareConfig :=
  { ExcludedRoutes := [], ExcludedMethods := [], ExcludedHeaders := [] }

/-- A 200 response used by concrete test routers. -/
def okResponse : Response :=
  { statusCode := 200, headers := [], body := Body.str "ok" }

end RouterU

namespace RouterGo

/-- A handler that records `name` on the trace and returns `(resp, err)`. -/
def tracedHandler (name : String) (resp : Response) (err : Option String) : Handler :=
  fun _ tr => ((resp, err), tr ++ [name])

/-- A middleware that records `name ++ ":before"`, calls `next`, records
`name ++ ":after"`, and passes the inner result through unchanged. -/
def tracedMw (name : String) (cfg : Option MiddlewareConfig) : Middleware :=
  { Process := fun req next tr =>
      let r2 := next req (tr ++ [name ++ ":before"])
      (r2.1, r2.2 ++ [name ++ ":after"]),
    config := cfg }

/-- A 200 response used by concrete test routers. -/
def okResponse : Response :=
  { statusCode := 200, headers := [], body := "ok",
    cookies := [], isBase64Encoded := false }

/-- If every middleware in the list is excluded for `req`, the constructed
chain behaves exactly like the final handler (the chain proceeds directly
through every skipped entry). -/
theorem createHandlerChain_all_excluded (mws : List Middleware) (final : Handler)
    (req : LambdaReq) (tr : List String)
    (h : ∀ mw ∈ mws, shouldApplyMiddleware mw req = false) :
    createHandlerChain mws final req tr = final req tr := by
  induction mws with
  | nil => rfl
  | cons mw rest ih =>
    have hmw : shouldApplyMiddleware mw req = false := h mw (List.mem_cons_self mw rest)
    have hrest : ∀ m ∈ rest, shouldApplyMiddleware m req = false :=
      fun m hm => h m (List.mem_cons_of_mem mw hm)
    simp [createHandlerChain, hmw, ih hrest]

end RouterGo

/-!
Claim theorems.
-/

/-- C6: re-registering the same `(method, path)` pair leaves exactly the
handler of the second call in the route table, in both variants (the
route table maps each `(path, method)` key to at most one handler by
construction of the Go map embedding), and a subsequent dispatch invokes
the latest-registered handler. -/
theorem claimC6_last_registration_wins :
    (∀ (r : RouterU.Router) (method path : String) (h1 h2 : RouterU.Handler),
      ((RouterU.AddRoute (RouterU.AddRoute r method path h1) method path h2).routes
          path).map (fun mm => mm method) = some (some h2))
    ∧ (∀ (rg : RouterGo.Router) (method path : String) (g1 g2 : RouterGo.Handler),
      ((RouterGo.AddRoute (RouterGo.AddRoute rg method path g1) method path g2).routes
          path).map (fun mm => mm (RouterGo.goToUpper method)) = some (some g2))
    ∧ ((RouterU.HandleRequest
          (RouterU.AddRoute
            (RouterU.AddRoute RouterU.NewRouter "GET" "/x"
              (RouterU.tracedHandler "h1" RouterU.okResponse))
            "GET" "/x"
            (RouterU.tracedHandler "h2" RouterU.okResponse))
          (mkReq "GET" "/x")).trace = ["h2"])
    ∧ ((RouterGo.HandleRequest
          (RouterGo.AddRoute
            (RouterGo.AddRoute RouterGo.NewRouter "GET" "/x"
              (RouterGo.tracedHandler "g1" RouterGo.okResponse none))
            "GET" "/x"
            (RouterGo.tracedHandler "g2" RouterGo.okResponse none))
          (mkReq "GET" "/x")).trace = ["g2"]) := by
  refine ⟨fun r method path h1 h2 => ?_, fun rg method path g1 g2 => ?_, ?_, ?_⟩
  · simp [RouterU.AddRoute]
  · simp [RouterGo.AddRoute]
  · rfl
  · rfl

/-- C8: one dispatch never mutates router state, in either variant: the
embedding passes the router state through explicitly and returns it
unchanged (the Go methods contain no assignment to any router field),
including dispatches whose handler panics. -/
theorem claimC8_router_state_unchanged :
    (∀ (r : RouterU.Router) (req : LambdaReq),
      (RouterU.HandleRequest r req).router = r)
    ∧ (∀ (rg : RouterGo.Router) (req : LambdaReq),
      (RouterGo.HandleRequest rg req).router = rg) := by
  constructor
  · intro r req
    simp only [RouterU.HandleRequest]
    split <;> rfl
  · intro rg req
    rfl

/-- C9: the local-bridge adapter is a pure translation layer: it copies
verb, path, query string, cookies and body into the event model, joins a
header's multiple values with `","` (lower-casing the name), synthesizes
placeholder invocation metadata only for the serverless-only fields, and
hands the translated request unmodified to `Router.HandleRequest` without
any routing or middleware logic of its own. -/
theorem claimC9_adapter_pure_translation :
    (∀ (la : Adapter.LambdaAdapter) (r : Adapter.HttpReq) (now : String) (ne : Int),
      (Adapter.httpToLambdaRequest r now ne).requestContext.http.method = r.method
      ∧ (Adapter.httpToLambdaRequest r now ne).requestContext.http.path = r.urlPath
      ∧ (Adapter.httpToLambdaRequest r now ne).rawPath = r.urlPath
      ∧ (Adapter.httpToLambdaRequest r now ne).rawQueryString = r.rawQuery
      ∧ (Adapter.httpToLambdaRequest r now ne).cookies = r.cookies
      ∧ (Adapter.httpToLambdaRequest r now ne).body = r.body
      ∧ (Adapter.httpToLambdaRequest r now ne).headers
          = r.header.map (fun kv => (Adapter.goToLower kv.1, String.intercalate "," kv.2))
      ∧ (Adapter.httpToLambdaRequest r now ne).requestContext.accountID = "123456789012"
      ∧ (Adapter.httpToLambdaRequest r now ne).requestContext.requestID = "dummy-request-id"
      ∧ (Adapter.httpToLambdaRequest r now ne).requestContext.apiID = "dummy-api-id"
      ∧ (Adapter.httpToLambdaRequest r now ne).requestContext.http.sourceIP = r.remoteAddr
      ∧ (Adapter.httpToLambdaRequest r now ne).requestContext.http.userAgent = r.userAgent
      ∧ Adapter.ServeHTTP la r now ne
          = RouterU.HandleRequest la.router (Adapter.httpToLambdaRequest r now ne))
    ∧ (Adapter.httpToLambdaRequest
        { method := "GET", urlPath := "/h", rawQuery := "", proto := "", remoteAddr := "",
          userAgent := "", header := [("X-Multi", ["a", "b"])], query := [],
          cookies := [], body := "" } "t" 0).headers = [("x-multi", "a,b")] := by
  exact ⟨fun la r now ne =>
    ⟨rfl, rfl, rfl, rfl, rfl, rfl, rfl, rfl, rfl, rfl, rfl, rfl, rfl⟩, rfl⟩

/-- C10: the `router.go` variant upper-cases the method at registration
and looks the request method up verbatim — a route registered with method
`"get"` is matched by a `"GET"` request and missed (405) by a `"get"`
request — while the `part_001` variant performs no case normalization at
registration or lookup. -/
theorem claimC10_method_case_normalization :
    ∀ (g : RouterGo.Handler) (h : RouterU.Handler) (tr : List String),
      (RouterGo.handleRouteRequest (RouterGo.AddRoute RouterGo.NewRouter "get" "/x" g)
          (mkReq "GET" "/x") tr = g (mkReq "GET" "/x") tr)
      ∧ (RouterGo.handleRouteRequest (RouterGo.AddRoute RouterGo.NewRouter "get" "/x" g)
          (mkReq "get" "/x") tr
          = RouterGo.defaultMethodNotAllowedHandler (mkReq "get" "/x") tr)
      ∧ (((RouterU.AddRoute RouterU.NewRouter "get" "/x" h).routes "/x").map
          (fun mm => (mm "get", mm "GET")) = some (some h, none))
      ∧ (((RouterGo.AddRoute RouterGo.NewRouter "get" "/x" g).routes "/x").map
          (fun mm => (mm "GET", mm "get")) = some (some g, none)) :=
  fun _ _ _ => ⟨rfl, rfl, rfl, rfl⟩

/-- Concrete `part_001` router with a panicking route and a normal route. -/
def c1Router : RouterU.Router :=
  RouterU.AddRoute
    (RouterU.AddRoute RouterU.NewRouter "GET" "/boom" (RouterU.panickingHandler "boom"))
    "GET" "/ok" (RouterU.tracedHandler "ok" RouterU.okResponse)

/-- C1 (code bug): on a handler panic, `part_001`'s `HandleRequest` does
recover, logs a completion entry carrying the fault description with the
panic handler's 500 status, and leaves the router fit for subsequent
dispatches — but because the Go function's `Response` result is UNNAMED,
the deferred `recover` block's assignment to the local `resp` never
reaches the caller: the caller receives the zero `Response` (status 0),
not the panic handler's response as the claim states. -/
theorem claimC1_panic_dispatch :
    (RouterU.HandleRequest c1Router (mkReq "GET" "/boom")).response = RouterU.zeroResponse
    ∧ (RouterU.HandleRequest c1Router (mkReq "GET" "/boom")).response.statusCode ≠ 500
    ∧ (RouterU.HandleRequest c1Router (mkReq "GET" "/boom")).logEntry.error
        = some "panic: boom"
    ∧ (RouterU.HandleRequest c1Router (mkReq "GET" "/boom")).logEntry.status = 500
    ∧ (RouterU.HandleRequest c1Router (mkReq "GET" "/boom")).router = c1Router
    ∧ (RouterU.HandleRequest
         (RouterU.HandleRequest c1Router (mkReq "GET" "/boom")).router
         (mkReq "GET" "/ok")).response = RouterU.okResponse
    ∧ (RouterU.HandleRequest
         (RouterU.HandleRequest c1Router (mkReq "GET" "/boom")).router
         (mkReq "GET" "/ok")).logEntry.error = none :=
  ⟨rfl, by decide, rfl, rfl, rfl, rfl, rfl⟩

/-- Concrete `part_001` router with a route at `/hello`. -/
def helloRouter : RouterU.Router :=
  RouterU.AddRoute RouterU.NewRouter "GET" "/hello"
    (RouterU.tracedHandler "hello" RouterU.okResponse)

/-- Concrete `part_001` router with a route at the root path `/`. -/
def rootRouter : RouterU.Router :=
  RouterU.AddRoute RouterU.NewRouter "GET" "/"
    (RouterU.tracedHandler "root" RouterU.okResponse)

/-- C2 (code bug): `part_001` strips trailing slashes with
`strings.TrimRight(path, "/")`, which removes ALL trailing slashes (not
exactly one) and maps the root path `"/"` to the EMPTY string — so with
stripping enabled (the default) a route registered at `"/"` is
unreachable (404).  The parts of the claim about `/hello/` are true:
with stripping enabled it matches a route at `/hello`; disabled, it
does not. -/
theorem claimC2_trailing_slash :
    RouterU.trimRightSlash "/hello/" = "/hello"
    ∧ RouterU.trimRightSlash "/hello//" = "/hello"
    ∧ RouterU.trimRightSlash "/" = ""
    ∧ (RouterU.HandleRequest rootRouter (mkReq "GET" "/")).response.statusCode = 404
    ∧ (RouterU.HandleRequest helloRouter (mkReq "GET" "/hello/")).response
        = RouterU.okResponse
    ∧ (RouterU.HandleRequest (RouterU.SetStripTrailingSlash helloRouter false)
         (mkReq "GET" "/hello/")).response.statusCode = 404 :=
  ⟨rfl, rfl, rfl, rfl, rfl, rfl⟩

/-- Concrete `part_001` router: a pre-middleware whose configuration
excludes the route `/health`, and a handler registered at `/health`. -/
def c3RouterU : RouterU.Router :=
  RouterU.UsePre
    (RouterU.AddRoute RouterU.NewRouter "GET" "/health"
      (RouterU.tracedHandler "health" RouterU.okResponse))
    (RouterU.tracedMw "M")
    { ExcludedRoutes := ["/health"], ExcludedMethods := [], ExcludedHeaders := [] }

/-- Concrete `router.go` router: a pre-middleware excluding endpoint
`/health`, with routes at `/health` and `/other`. -/
def c3RouterGo : RouterGo.Router :=
  RouterGo.UsePre
    (RouterGo.AddRoute
      (RouterGo.AddRoute RouterGo.NewRouter "GET" "/health"
        (RouterGo.tracedHandler "health" RouterGo.okResponse none))
      "GET" "/other" (RouterGo.tracedHandler "other" RouterGo.okResponse none))
    (RouterGo.tracedMw "M"
      (some { ExcludedEndpoints := ["/health"], ExcludedMethods := [],
              ExcludedHeaders := [] }))

/-- C3 (code bug in `part_001`): `router.go` honors exclusions — the
excluded middleware's transform does not run on `/health` (the chain
proceeds straight to the handler) but runs for `/other`, and method and
header exclusions behave as claimed — whereas `part_001`'s
`applyMiddleware` never consults the stored `Middleware.Config`: the
pre-middleware excluding `/health` still runs on a `/health` dispatch. -/
theorem claimC3_exclusions :
    ((RouterU.HandleRequest c3RouterU (mkReq "GET" "/health")).trace
        = ["M:before", "health", "M:after"])
    ∧ ((RouterGo.HandleRequest c3RouterGo (mkReq "GET" "/health")).trace = ["health"])
    ∧ ((RouterGo.HandleRequest c3RouterGo (mkReq "GET" "/other")).trace
        = ["M:before", "other", "M:after"])
    ∧ (RouterGo.shouldApplyMiddleware
        (RouterGo.tracedMw "N"
          (some { ExcludedEndpoints := [], ExcludedMethods := ["POST"],
                  ExcludedHeaders := [] }))
        (mkReq "POST" "/x") = false)
    ∧ (RouterGo.shouldApplyMiddleware
        (RouterGo.tracedMw "N"
          (some { ExcludedEndpoints := [], ExcludedMethods := [],
                  ExcludedHeaders := [("x-skip", "1")] }))
        (mkReq "GET" "/x" [("x-skip", "1")]) = false)
    ∧ (RouterGo.shouldApplyMiddleware
        (RouterGo.tracedMw "N"
          (some { ExcludedEndpoints := [], ExcludedMethods := [],
                  ExcludedHeaders := [("x-skip", "1")] }))
        (mkReq "GET" "/x" [("x-skip", "2")]) = true) :=
  ⟨rfl, rfl, rfl, rfl, rfl, rfl⟩

/-- Concrete `part_001` router: no pre-middleware, one post-middleware
`P`, and a traced route handler. -/
def c5RouterU : RouterU.Router :=
  RouterU.UsePost
    (RouterU.AddRoute RouterU.NewRouter "GET" "/r"
      (RouterU.tracedHandler "route" RouterU.okResponse))
    (RouterU.tracedMw "P") RouterU.emptyConfig

/-- Concrete `router.go` router: pre-middleware `A`, post-middleware `P`,
and a traced route handler. -/
def c5RouterGo : RouterGo.Router :=
  RouterGo.UsePost
    (RouterGo.UsePre
      (RouterGo.AddRoute RouterGo.NewRouter "GET" "/r"
        (RouterGo.tracedHandler "route" RouterGo.okResponse none))
      (RouterGo.tracedMw "A" none))
    (RouterGo.tracedMw "P" none)

/-- C5 counterexample: the claimed chain
`pre* -> routeDispatch -> post*` would place all of a post-middleware's
execution after the core route dispatch; in both variants the post
middleware's before-next logic runs BEFORE the route dispatch (the route
dispatch is innermost), and in `router.go` even before the
pre-middleware's. -/
theorem claimC5_counterexample :
    ((RouterU.HandleRequest c5RouterU (mkReq "GET" "/r")).trace
        = ["P:before", "route", "P:after"])
    ∧ ¬ ((RouterU.HandleRequest c5RouterU (mkReq "GET" "/r")).trace.findIdx
          (fun s => s == "route")
        < (RouterU.HandleRequest c5RouterU (mkReq "GET" "/r")).trace.findIdx
          (fun s => s == "P:before"))
    ∧ ((RouterGo.HandleRequest c5RouterGo (mkReq "GET" "/r")).trace
        = ["P:before", "A:before", "route", "A:after", "P:after"]) :=
  ⟨rfl, by decide, rfl⟩

/-- A `part_001` router with pre-middleware `[a, b]`, post-middleware
`[p]` and a route handler named `rn`, all traced. -/
def c5GenU (a b p rn : String) : RouterU.Router :=
  RouterU.UsePost
    (RouterU.UsePre
      (RouterU.UsePre
        (RouterU.AddRoute RouterU.NewRouter "GET" "/r"
          (RouterU.tracedHandler rn RouterU.okResponse))
        (RouterU.tracedMw a) RouterU.emptyConfig)
      (RouterU.tracedMw b) RouterU.emptyConfig)
    (RouterU.tracedMw p) RouterU.emptyConfig

/-- A `router.go` router with pre-middleware `[a, b]`, post-middleware
`[p]` and a route handler named `rn`, all traced. -/
def c5GenGo (a b p rn : String) : RouterGo.Router :=
  RouterGo.UsePost
    (RouterGo.UsePre
      (RouterGo.UsePre
        (RouterGo.AddRoute RouterGo.NewRouter "GET" "/r"
          (RouterGo.tracedHandler rn RouterGo.okResponse none))
        (RouterGo.tracedMw a none))
      (RouterGo.tracedMw b none))
    (RouterGo.tracedMw p none)

/-- C5 as amended: the route dispatch is innermost in both variants.  In
`part_001` the chain nests `pre[0] -> pre[1] -> post[0] -> routeDispatch`;
in `router.go` it nests `post[0] -> pre[0] -> pre[1] -> routeDispatch`.
Pre-middleware nest strictly LIFO: `a`'s before-next logic runs before
`b`'s, and `b`'s after-next logic runs before `a`'s. -/
theorem claimC5_nesting (a b p rn : String) :
    ((RouterU.HandleRequest (c5GenU a b p rn) (mkReq "GET" "/r")).trace
      = [a ++ ":before", b ++ ":before", p ++ ":before", rn,
         p ++ ":after", b ++ ":after", a ++ ":after"])
    ∧ ((RouterGo.HandleRequest (c5GenGo a b p rn) (mkReq "GET" "/r")).trace
      = [p ++ ":before", a ++ ":before", b ++ ":before", rn,
         b ++ ":after", a ++ ":after", p ++ ":after"]) :=
  ⟨rfl, rfl⟩

/-- C4 counterexample: in the `router.go` variant the default not-found
handler returns the PLAIN string body `"Not Found"` with no headers, not
the JSON object body the claim states (and likewise 405 returns
`"Method Not Allowed"`). -/
theorem claimC4_counterexample :
    ((RouterGo.HandleRequest RouterGo.NewRouter (mkReq "GET" "/nope")).response.statusCode
        = 404)
    ∧ ((RouterGo.HandleRequest RouterGo.NewRouter (mkReq "GET" "/nope")).response.body
        = "Not Found")
    ∧ ((RouterGo.HandleRequest RouterGo.NewRouter (mkReq "GET" "/nope")).response.body
        ≠ "\x7b\"error\":\"Not Found\"\x7d")
    ∧ ((RouterGo.HandleRequest RouterGo.NewRouter (mkReq "GET" "/nope")).response.headers
        = []) :=
  ⟨rfl, rfl, by decide, rfl⟩

/-- C4 as amended: with the default terminal handlers, a path miss yields
404 and a method miss 405 in both variants; the `part_001` defaults carry
the JSON object bodies (`error: Not Found` / `error: Method Not Allowed`)
with a `Content-Type: application/json` header, while the `router.go`
defaults carry the plain string bodies `"Not Found"` /
`"Method Not Allowed"`, no headers, and a nil error. -/
theorem claimC4_default_terminal_handlers :
    (∀ (r : RouterU.Router) (req : LambdaReq),
      r.notFoundHandler = RouterU.defaultNotFoundHandler →
      r.routes (if r.stripTrailingSlash then RouterU.trimRightSlash req.requestContext.http.path
                else req.requestContext.http.path) = none →
      (RouterU.HandleRequest r req).response
        = { statusCode := 404, headers := [("Content-Type", "application/json")],
            body := RouterU.Body.obj [("error", "Not Found")] })
    ∧ (∀ (r : RouterU.Router) (req : LambdaReq) (hs : String → Option RouterU.Handler),
      r.methodNotAllowedHandler = RouterU.defaultMethodNotAllowedHandler →
      r.routes (if r.stripTrailingSlash then RouterU.trimRightSlash req.requestContext.http.path
                else req.requestContext.http.path) = some hs →
      hs req.requestContext.http.method = none →
      (RouterU.HandleRequest r req).response
        = { statusCode := 405, headers := [("Content-Type", "application/json")],
            body := RouterU.Body.obj [("error", "Method Not Allowed")] })
    ∧ (∀ (rg : RouterGo.Router) (req : LambdaReq),
      rg.preMiddleware = [] → rg.postMiddleware = [] →
      rg.notFoundHandler = RouterGo.defaultNotFoundHandler →
      rg.routes req.requestContext.http.path = none →
      (RouterGo.HandleRequest rg req).response
          = { statusCode := 404, headers := [], body := "Not Found",
              cookies := [], isBase64Encoded := false }
        ∧ (RouterGo.HandleRequest rg req).error = none)
    ∧ (∀ (rg : RouterGo.Router) (req : LambdaReq) (hs : String → Option RouterGo.Handler),
      rg.preMiddleware = [] → rg.postMiddleware = [] →
      rg.methodNotAllowedHandler = RouterGo.defaultMethodNotAllowedHandler →
      rg.routes req.requestContext.http.path = some hs →
      hs req.requestContext.http.method = none →
      (RouterGo.HandleRequest rg req).response
          = { statusCode := 405, headers := [], body := "Method Not Allowed",
              cookies := [], isBase64Encoded := false }
        ∧ (RouterGo.HandleRequest rg req).error = none) := by
  refine ⟨fun r req h1 h2 => ?_, fun r req hs h1 h2 h3 => ?_,
          fun rg req hp hq h1 h2 => ?_, fun rg req hs hp hq h1 h2 h3 => ?_⟩
  · simp [RouterU.HandleRequest, h1, h2, RouterU.defaultNotFoundHandler]
  · simp [RouterU.HandleRequest, h1, h2, h3, RouterU.defaultMethodNotAllowedHandler]
  · simp [RouterGo.HandleRequest, hp, hq, RouterGo.createHandlerChain,
          RouterGo.handleRouteRequest, h1, h2, RouterGo.defaultNotFoundHandler]
  · simp [RouterGo.HandleRequest, hp, hq, RouterGo.createHandlerChain,
          RouterGo.handleRouteRequest, h1, h2, h3,
          RouterGo.defaultMethodNotAllowedHandler]

/-- Witness for the amended C4: instantiating each part on a concrete
freshly-built router and request. -/
theorem claimC4_default_terminal_handlers_witness :
    ((RouterU.HandleRequest RouterU.NewRouter (mkReq "GET" "/nope")).response
      = { statusCode := 404, headers := [("Content-Type", "application/json")],
          body := RouterU.Body.obj [("error", "Not Found")] })
    ∧ ((RouterU.HandleRequest helloRouter (mkReq "POST" "/hello")).response
      = { statusCode := 405, headers := [("Content-Type", "application/json")],
          body := RouterU.Body.obj [("error", "Method Not Allowed")] })
    ∧ ((RouterGo.HandleRequest RouterGo.NewRouter (mkReq "GET" "/nope")).response
          = { statusCode := 404, headers := [], body := "Not Found",
              cookies := [], isBase64Encoded := false }
        ∧ (RouterGo.HandleRequest RouterGo.NewRouter (mkReq "GET" "/nope")).error = none)
    ∧ ((RouterGo.HandleRequest
          (RouterGo.AddRoute RouterGo.NewRouter "GET" "/x"
            (RouterGo.tracedHandler "x" RouterGo.okResponse none))
          (mkReq "POST" "/x")).response
          = { statusCode := 405, headers := [], body := "Method Not Allowed",
              cookies := [], isBase64Encoded := false }
        ∧ (RouterGo.HandleRequest
            (RouterGo.AddRoute RouterGo.NewRouter "GET" "/x"
              (RouterGo.tracedHandler "x" RouterGo.okResponse none))
            (mkReq "POST" "/x")).error = none) :=
  ⟨claimC4_default_terminal_handlers.1 RouterU.NewRouter (mkReq "GET" "/nope") rfl rfl,
   claimC4_default_terminal_handlers.2.1 helloRouter (mkReq "POST" "/hello") _ rfl rfl rfl,
   claimC4_default_terminal_handlers.2.2.1 RouterGo.NewRouter (mkReq "GET" "/nope")
     rfl rfl rfl rfl,
   claimC4_default_terminal_handlers.2.2.2
     (RouterGo.AddRoute RouterGo.NewRouter "GET" "/x"
       (RouterGo.tracedHandler "x" RouterGo.okResponse none))
     (mkReq "POST" "/x") _ rfl rfl rfl rfl rfl⟩

/-- C7: the `router.go` variant passes a handler's explicit non-nil error
value through `HandleRequest` unchanged (shown when the router's own
machinery runs the matched handler — every registered middleware excluded
for the request, so the chain proceeds straight through), and the default
terminal handlers for routing and method misses never produce an error
value. -/
theorem claimC7_error_passthrough :
    (∀ (rg : RouterGo.Router) (req : LambdaReq)
       (hs : String → Option RouterGo.Handler) (h : RouterGo.Handler)
       (resp : RouterGo.Response) (e : String) (tr : List String),
      (∀ mw ∈ rg.preMiddleware, RouterGo.shouldApplyMiddleware mw req = false) →
      (∀ mw ∈ rg.postMiddleware, RouterGo.shouldApplyMiddleware mw req = false) →
      rg.routes req.requestContext.http.path = some hs →
      hs req.requestContext.http.method = some h →
      h req [] = ((resp, some e), tr) →
      (RouterGo.HandleRequest rg req).error = some e
      ∧ (RouterGo.HandleRequest rg req).response = resp)
    ∧ (∀ (req : LambdaReq) (tr : List String),
      (RouterGo.defaultNotFoundHandler req tr).1.2 = none
      ∧ (RouterGo.defaultMethodNotAllowedHandler req tr).1.2 = none) := by
  refine ⟨fun rg req hs h resp e tr hpre hpost h1 h2 h3 => ?_,
          fun req tr => ⟨rfl, rfl⟩⟩
  have hrun : (RouterGo.createHandlerChain rg.postMiddleware
      (RouterGo.createHandlerChain rg.preMiddleware (RouterGo.handleRouteRequest rg)))
      req [] = ((resp, some e), tr) := by
    rw [RouterGo.createHandlerChain_all_excluded _ _ _ _ hpost,
        RouterGo.createHandlerChain_all_excluded _ _ _ _ hpre]
    simp [RouterGo.handleRouteRequest, h1, h2, h3]
  constructor
  · simp [RouterGo.HandleRequest, hrun]
  · simp [RouterGo.HandleRequest, hrun]

/-- A `router.go` handler that reports an explicit error value. -/
def c7Handler : RouterGo.Handler :=
  fun _ tr => ((RouterGo.okResponse, some "boom"), tr ++ ["e"])

/-- Concrete `router.go` router used to witness C7. -/
def c7Router : RouterGo.Router :=
  RouterGo.AddRoute RouterGo.NewRouter "GET" "/e" c7Handler

/-- Witness for C7: the error value `"boom"` reported by the matched
handler surfaces unchanged from `HandleRequest`. -/
theorem claimC7_error_passthrough_witness :
    (RouterGo.HandleRequest c7Router (mkReq "GET" "/e")).error = some "boom"
    ∧ (RouterGo.HandleRequest c7Router (mkReq "GET" "/e")).response
        = RouterGo.okResponse :=
  claimC7_error_passthrough.1 c7Router (mkReq "GET" "/e") _ c7Handler
    RouterGo.okResponse "boom" ["e"]
    (fun mw hmw => absurd hmw (List.not_mem_nil mw))
    (fun mw hmw => absurd hmw (List.not_mem_nil mw))
    rfl rfl rfl
